import Mathlib

/-!
Verification of the async-video-processing repository.

Frontend components are embedded from
`src/frontend/src/components/VideoUpload.jsx` (the `VideoUpload` and
`TaskList` React components).  Backend snippets that appear verbatim in
`src/ARCHITECTURE.md` (`calculate_retry_delay`, `UpdateBatcher`) are embedded
from that file.  The task-orchestration core (state machine, lease manager,
checkpoint store) has no implementation in the repository, so it is modelled
from the specification; each such definition carries a doc comment starting
with `Modelled from the spec:`.

JavaScript strings are modelled as `List Char` so that every definition is
executable and kernel-reducible on concrete inputs.
-/

namespace AsyncVideo

/-- Model of a JavaScript string (`List Char` reduces in the kernel, unlike
`String` functions such as `String.splitOn`). -/
abbrev Str := List Char

/-! ## VideoUpload.jsx : file validation -/

/-- Model of a browser `File` object as consumed by `validateFile`:
`file.type` (MIME type), `file.name`, `file.size` (bytes). -/
structure JSFile where
  type : Str
  name : Str
  size : Nat
deriving DecidableEq, Repr

/-- `MAX_FILE_SIZE = 2 * 1024 * 1024 * 1024` (2GB) from VideoUpload.jsx. -/
def MAX_FILE_SIZE : Nat := 2 * 1024 * 1024 * 1024

/-- `ALLOWED_VIDEO_TYPES` from VideoUpload.jsx. -/
def ALLOWED_VIDEO_TYPES : List Str :=
  ["video/mp4".data, "video/webm".data, "video/quicktime".data,
   "video/x-msvideo".data, "video/x-matroska".data]

/-- `ALLOWED_EXTENSIONS` from VideoUpload.jsx. -/
def ALLOWED_EXTENSIONS : List Str :=
  [".mp4".data, ".webm".data, ".mov".data, ".avi".data, ".mkv".data]

/-- Model of JavaScript `s.split(c)` (here only used with `'.'`):
splits into the list of chunks between occurrences of `c`; the result is
never empty (`"".split('.') == [""]`). -/
def splitOnChar (c : Char) : Str → List Str
  | [] => [[]]
  | ch :: rest =>
    let groups := splitOnChar c rest
    if ch = c then [] :: groups
    else
      match groups with
      | [] => [[ch]]
      | g :: gs => (ch :: g) :: gs

/-- Model of `'.' + file.name.split('.').pop().toLowerCase()` from
`validateFile` (`Array.prototype.pop` on the non-empty result of `split`
is its last element). -/
def fileExtension (name : Str) : Str :=
  '.' :: ((splitOnChar '.' name).getLastD []).map Char.toLower

/-- Model of `Array.prototype.join(sep)` for a list of strings. -/
def joinSep (sep : Str) : List Str → Str
  | [] => []
  | [x] => x
  | x :: y :: xs => x ++ sep ++ joinSep sep (y :: xs)

/-- Error message of the MIME-type branch of `validateFile`. -/
def invalidTypeMsg : Str :=
  "Invalid file type. Allowed types: ".data ++ joinSep ", ".data ALLOWED_EXTENSIONS

/-- Error message of the extension branch of `validateFile`. -/
def invalidExtMsg : Str :=
  "Invalid file extension. Allowed: ".data ++ joinSep ", ".data ALLOWED_EXTENSIONS

/-- Error message of the size branch of `validateFile`
(`maxSizeGB.toFixed(2)` of 2GB is the literal `"2.00"`). -/
def sizeLimitMsg : Str :=
  "File size exceeds maximum limit of 2.00GB".data

/-- Error message of the empty-file branch of `validateFile`. -/
def emptyFileMsg : Str :=
  "File is empty".data

/-- Result object `{ isValid, error }` returned by `validateFile`. -/
structure ValidationResult where
  isValid : Bool
  error : Option Str
deriving DecidableEq, Repr

/-- Embedding of `validateFile` from VideoUpload.jsx: the four checks in
source order (MIME type, extension, size above limit, zero size). -/
def validateFile (file : JSFile) : ValidationResult :=
  if !(ALLOWED_VIDEO_TYPES.contains file.type) then
    { isValid := false, error := some invalidTypeMsg }
  else if !(ALLOWED_EXTENSIONS.contains (fileExtension file.name)) then
    { isValid := false, error := some invalidExtMsg }
  else if MAX_FILE_SIZE < file.size then
    { isValid := false, error := some sizeLimitMsg }
  else if file.size = 0 then
    { isValid := false, error := some emptyFileMsg }
  else
    { isValid := true, error := none }

/-- Outcome of `handleFileSelect`: the error state set and whether
`uploadFile` was invoked. -/
structure SelectOutcome where
  error : Option Str
  uploadStarted : Bool
deriving DecidableEq, Repr

/-- Embedding of `handleFileSelect` from VideoUpload.jsx: validates the
first selected file; on failure records the error and does not upload, on
success clears the error and starts the upload. -/
def handleFileSelect (files : List JSFile) : SelectOutcome :=
  match files with
  | [] => { error := none, uploadStarted := false }
  | file :: _ =>
    let validation := validateFile file
    if !validation.isValid then
      { error := validation.error, uploadStarted := false }
    else
      { error := none, uploadStarted := true }

/-! ## TaskList component (second component in VideoUpload.jsx) -/

/-- Model of a task object rendered by the `TaskList` component; `progress`
is optional because `getProgressPercentage` reads `task.progress || 0`. -/
structure UITask where
  id : Str
  name : Str
  status : Str
  created_at : Nat
  progress : Option Nat
deriving DecidableEq, Repr

/-- Model of JavaScript `String.prototype.includes` (substring test). -/
def jsIncludes (hay sub : Str) : Bool :=
  hay.tails.any (fun t => sub.isPrefixOf t)

/-- Model of JavaScript `String.prototype.trim`. -/
def jsTrim (s : Str) : Str :=
  ((s.dropWhile Char.isWhitespace).reverse.dropWhile Char.isWhitespace).reverse

/-- Model of `a.localeCompare(b)` as code-point lexicographic comparison. -/
def lexCompare : Str → Str → Int
  | [], [] => 0
  | [], _ :: _ => -1
  | _ :: _, [] => 1
  | a :: as, b :: bs =>
    if a < b then -1 else if b < a then 1 else lexCompare as bs

/-- Comparator of the `sort` call inside the TaskList filter/sort effect:
by `status`, by `name`, or (default, `created_at`) newest first. -/
def taskComparator (sortBy : Str) (a b : UITask) : Int :=
  if sortBy = "status".data then lexCompare a.status b.status
  else if sortBy = "name".data then lexCompare a.name b.name
  else (b.created_at : Int) - (a.created_at : Int)

/-- Ordering relation induced by `taskComparator` (an element precedes
another when the comparator is non-positive). -/
def taskLE (sortBy : Str) (a b : UITask) : Prop :=
  taskComparator sortBy a b ≤ 0

instance (sortBy : Str) : DecidableRel (taskLE sortBy) :=
  fun a b => inferInstanceAs (Decidable (taskComparator sortBy a b ≤ 0))

/-- Search predicate of the TaskList filter effect:
`task.name.toLowerCase().includes(q) || task.id.toLowerCase().includes(q)`
with `q` the lower-cased query. -/
def matchesSearch (searchQuery : Str) (t : UITask) : Bool :=
  jsIncludes (t.name.map Char.toLower) (searchQuery.map Char.toLower) ||
  jsIncludes (t.id.map Char.toLower) (searchQuery.map Char.toLower)

/-- Embedding of the TaskList filter/sort `useEffect`: status filter (when
not `'all'`), then search filter (when the trimmed query is non-empty),
then a comparator sort. -/
def filteredTasks (tasks : List UITask) (filterStatus searchQuery sortBy : Str) :
    List UITask :=
  let afterStatus :=
    if filterStatus ≠ "all".data then
      tasks.filter (fun t => t.status == filterStatus)
    else tasks
  let afterSearch :=
    if jsTrim searchQuery ≠ [] then
      afterStatus.filter (matchesSearch searchQuery)
    else afterStatus
  List.insertionSort (taskLE sortBy) afterSearch

/-- Embedding of `getProgressPercentage` from the TaskList component. -/
def getProgressPercentage (task : UITask) : Nat :=
  if task.status = "completed".data then 100
  else if task.status = "failed".data then 0
  else task.progress.getD 0

/-! ## Retry backoff (`calculate_retry_delay` in src/ARCHITECTURE.md) -/

/-- Embedding of `calculate_retry_delay` from src/ARCHITECTURE.md:
`base_delay = 2 ** (retry_count - 1)`, `jitter = random.uniform(0.8, 1.2)`,
result `min(base_delay * jitter, 300)`.  The randomly drawn jitter is an
explicit rational parameter. -/
def calculate_retry_delay (retry_count : Nat) (jitter : ℚ) : ℚ :=
  let base_delay : ℚ := 2 ^ (retry_count - 1)
  min (base_delay * jitter) 300

/-! ## UpdateBatcher (src/ARCHITECTURE.md, Update Queue Management) -/

/-- Embedding of the `UpdateBatcher` class state from src/ARCHITECTURE.md:
its only mutable state is `this.queue`. -/
structure UpdateBatcher (α : Type) where
  queue : List α
deriving DecidableEq, Repr

/-- Embedding of `UpdateBatcher.addUpdate`: `this.queue = [update]` — the
queue is replaced by the singleton holding the newest update. -/
def addUpdate {α : Type} (b : UpdateBatcher α) (update : α) : UpdateBatcher α :=
  { b with queue := [update] }

/-- Embedding of one firing of the interval callback installed by
`UpdateBatcher.start`: if the queue is non-empty it emits `queue[0]` via
`onBatch` and clears the queue.  Returns the emitted value (at most one per
interval) and the new state. -/
def batchTick {α : Type} (b : UpdateBatcher α) : Option α × UpdateBatcher α :=
  match b.queue with
  | [] => (none, b)
  | u :: _ => (some u, { queue := [] })

/-! ## Task orchestration core

The orchestration engine (Task Record state machine, Lease Manager, Retry
Policy dispatch, Checkpoint Store) has no implementation in the repository
— src/ARCHITECTURE.md documents it in prose.  It is therefore modelled from
the specification (§3, §4, §6). -/

/-- Modelled from the spec (§3): `status` is one of
`QUEUED, PROCESSING, COMPLETED, FAILED, CANCELLED`. -/
inductive Status where
  | QUEUED
  | PROCESSING
  | COMPLETED
  | FAILED
  | CANCELLED
deriving DecidableEq, Repr

/-- Modelled from the spec (§4.3, §4.1): error classes consumed by the
Retry Policy, plus the `Cancelled` error class a worker reports after
observing the cancellation flag. -/
inductive ErrorClass where
  | PERMANENT
  | RETRIABLE
  | TRANSIENT
  | Cancelled
deriving DecidableEq, Repr

/-- Modelled from the spec (§3): the Task Record fields the lifecycle
claims are about. -/
structure TaskRecord where
  status : Status
  progress : Nat
  retryCount : Nat
  maxRetries : Nat
  leaseOwner : Option Nat
  error : Option ErrorClass
  cancelRequested : Bool
deriving DecidableEq, Repr

/-- Modelled from the spec (§7): the rejection signals of the worker/client
facing operations. -/
inductive OpError where
  | AlreadyLeased
  | LeaseExpired
  | NotCancellable
  | ValidationError
  | InvalidState
deriving DecidableEq, Repr

/-- Modelled from the spec (§4.1 `submit`): a fresh record in `QUEUED` with
`retryCount = 0` and the given retry budget. -/
def submitRecord (maxRetries : Nat) : TaskRecord :=
  { status := .QUEUED, progress := 0, retryCount := 0, maxRetries := maxRetries,
    leaseOwner := none, error := none, cancelRequested := false }

/-- Modelled from the spec (§4.1 `acquire`): atomically checks the record is
`QUEUED` and unleased, acquires the lease and sets `status = PROCESSING`;
otherwise the caller lost the race and receives `AlreadyLeased` with no
side effect. -/
def acquire (workerId : Nat) (r : TaskRecord) : Except OpError TaskRecord :=
  if r.status = .QUEUED ∧ r.leaseOwner = none then
    .ok { r with status := .PROCESSING, leaseOwner := some workerId }
  else
    .error .AlreadyLeased

/-- Modelled from the spec (§4.1 `reportProgress`): requires the caller to
hold the current lease (else `LeaseExpired`); updates `progress`.  Per the
data model (§3) `progress` is an integer 0–100, monotonically non-decreasing
while `PROCESSING`, and `progress = 100` implies `status = COMPLETED`, so an
intermediate report is below 100 (100 is set only by `reportSuccess`);
out-of-range reports are rejected as malformed input. -/
def reportProgress (workerId p : Nat) (r : TaskRecord) : Except OpError TaskRecord :=
  if r.status = .PROCESSING ∧ r.leaseOwner = some workerId then
    if r.progress ≤ p ∧ p ≤ 99 then .ok { r with progress := p }
    else .error .ValidationError
  else
    .error .LeaseExpired

/-- Modelled from the spec (§4.1 `reportSuccess`): requires a valid lease;
sets `status = COMPLETED`, `progress = 100`, releases the lease. -/
def reportSuccess (workerId : Nat) (r : TaskRecord) : Except OpError TaskRecord :=
  if r.status = .PROCESSING ∧ r.leaseOwner = some workerId then
    .ok { r with status := .COMPLETED, progress := 100, leaseOwner := none }
  else
    .error .LeaseExpired

/-- Modelled from the spec (§4.1 `reportFailure`): requires a valid lease;
releases it; a `Cancelled` error class maps directly to `CANCELLED`
(bypassing retry); otherwise the Retry Policy (§4.3) is consulted — if the
class is retriable (`RETRIABLE` or `TRANSIENT`) and budget remains
(`retryCount < maxRetries`), `retryCount` is incremented and the record is
reset to `QUEUED` (progress reset to 0 on retry re-entry, §3); else the
record becomes `FAILED` with the error recorded. -/
def reportFailure (workerId : Nat) (e : ErrorClass) (r : TaskRecord) :
    Except OpError TaskRecord :=
  if r.status = .PROCESSING ∧ r.leaseOwner = some workerId then
    if e = .Cancelled then
      .ok { r with status := .CANCELLED, leaseOwner := none }
    else if (e = .RETRIABLE ∨ e = .TRANSIENT) ∧ r.retryCount < r.maxRetries then
      .ok { r with status := .QUEUED, retryCount := r.retryCount + 1,
                   progress := 0, leaseOwner := none }
    else
      .ok { r with status := .FAILED, leaseOwner := none, error := some e }
  else
    .error .LeaseExpired

/-- Modelled from the spec (§4.1 `cancel`): valid from `QUEUED` (immediate
`CANCELLED`) or `PROCESSING` (sets the cooperative cancellation flag);
`NotCancellable` otherwise (§6). -/
def cancel (r : TaskRecord) : Except OpError TaskRecord :=
  if r.status = .QUEUED then .ok { r with status := .CANCELLED }
  else if r.status = .PROCESSING then .ok { r with cancelRequested := true }
  else .error .NotCancellable

/-- Modelled from the spec (§4.2, §4.4): the reaper requeues a task whose
lease expired unrenewed, as a `TRANSIENT` failure counting toward
`retryCount`; when the budget is exhausted the task is dead-lettered. -/
def expireLease (r : TaskRecord) : Except OpError TaskRecord :=
  if r.status = .PROCESSING then
    if r.retryCount < r.maxRetries then
      .ok { r with status := .QUEUED, retryCount := r.retryCount + 1,
                   progress := 0, leaseOwner := none }
    else
      .ok { r with status := .FAILED, leaseOwner := none, error := some .TRANSIENT }
  else
    .error .InvalidState

/-- Modelled from the spec (§4.3, §6): the operator-triggered dead-letter
`requeue(taskId)` resets `retryCount = 0` and pushes the `FAILED` record
back to `QUEUED`. -/
def requeue (r : TaskRecord) : Except OpError TaskRecord :=
  if r.status = .FAILED then
    .ok { r with status := .QUEUED, retryCount := 0, progress := 0, error := none }
  else
    .error .InvalidState

/-- Modelled from the spec (§6): the record-mutating operations the core
exposes (worker protocol, cancellation, reaper, dead-letter
administration). -/
inductive Op where
  | acquireOp (workerId : Nat)
  | progressOp (workerId p : Nat)
  | successOp (workerId : Nat)
  | failureOp (workerId : Nat) (e : ErrorClass)
  | cancelOp
  | expireOp
  | requeueOp
deriving DecidableEq, Repr

/-- Dispatch of one core operation on a record. -/
def stepOp : Op → TaskRecord → Except OpError TaskRecord
  | .acquireOp w, r => acquire w r
  | .progressOp w p, r => reportProgress w p r
  | .successOp w, r => reportSuccess w r
  | .failureOp w e, r => reportFailure w e r
  | .cancelOp, r => cancel r
  | .expireOp, r => expireLease r
  | .requeueOp, r => requeue r

/-- One attempted operation: a rejected call leaves the record unchanged
(§7: concurrency-control signals and infrastructure errors never mutate
task state). -/
def attempt (r : TaskRecord) (op : Op) : TaskRecord :=
  match stepOp op r with
  | .ok r' => r'
  | .error _ => r

/-- A sequence of attempted operations starting from a record. -/
def runOps (r : TaskRecord) (ops : List Op) : TaskRecord :=
  ops.foldl attempt r

/-! ## Checkpoint Store (spec §4.5) -/

/-- Modelled from the spec (§4.5): a stored checkpoint is opaque bytes plus
a monotonically increasing sequence number supplied by the worker. -/
structure Checkpoint where
  seq : Nat
  payload : List Nat
deriving DecidableEq, Repr

/-- Modelled from the spec (§4.5): the store keeps, per task id, the most
recent durable checkpoint. -/
def CheckpointStore := Nat → Option Checkpoint

/-- Modelled from the spec (§4.5, §7): the rejection signal of a stale
checkpoint write. -/
inductive SaveError where
  | StaleCheckpoint
deriving DecidableEq, Repr

/-- Modelled from the spec (§4.5 `save(taskId, seq, payload)`): rejects a
write whose `seq` is not strictly greater than the stored sequence, leaving
the store untouched; an accepted write replaces the stored checkpoint. -/
def saveCheckpoint (store : CheckpointStore) (taskId seq : Nat)
    (payload : List Nat) : Except SaveError Unit × CheckpointStore :=
  match store taskId with
  | some cp =>
    if seq ≤ cp.seq then (.error .StaleCheckpoint, store)
    else (.ok (), fun t => if t = taskId then some ⟨seq, payload⟩ else store t)
  | none => (.ok (), fun t => if t = taskId then some ⟨seq, payload⟩ else store t)

/-! ## Lease race (spec §4.1/§5) -/

/-- Modelled from the spec (§5): `N` concurrent `acquire` calls on one task
are linearized by the Lease Manager's atomic compare-and-set; the
interleaving is a serial order of the callers.  One caller's turn. -/
def acquireStep (acc : TaskRecord × List (Except OpError Unit)) (w : Nat) :
    TaskRecord × List (Except OpError Unit) :=
  match acquire w acc.1 with
  | .ok r' => (r', acc.2 ++ [.ok ()])
  | .error e => (acc.1, acc.2 ++ [.error e])

/-- Linearized race: each caller in turn attempts `acquire`; the final
record and the per-caller results in call order. -/
def acquireRace (workers : List Nat) (r : TaskRecord) :
    TaskRecord × List (Except OpError Unit) :=
  workers.foldl acquireStep (r, [])

/-- Success test on an `acquire` outcome. -/
def isOkResult : Except OpError Unit → Bool
  | .ok _ => true
  | .error _ => false

/-! ## Theorems -/

/-- Transition edges of the §4.1 state machine as enumerated by the claim:
`QUEUED → PROCESSING`, `PROCESSING → COMPLETED | FAILED | QUEUED`, and
`QUEUED | PROCESSING → CANCELLED`. -/
def lifecycleEdge (s t : Status) : Bool :=
  match s, t with
  | .QUEUED, .PROCESSING => true
  | .PROCESSING, .COMPLETED => true
  | .PROCESSING, .FAILED => true
  | .PROCESSING, .QUEUED => true
  | .QUEUED, .CANCELLED => true
  | .PROCESSING, .CANCELLED => true
  | _, _ => false

/-- C1 (amended): every successful core operation either keeps the status or
moves it along a §4.1 edge, with the single exception of the operator
dead-letter `requeue`, which moves `FAILED` back to `QUEUED`; consequently
`COMPLETED` and `CANCELLED` have no outgoing transitions, and `CANCELLED` is
never entered from `COMPLETED` or `FAILED`. -/
theorem lifecycle_transitions_amended :
    (∀ op r r', stepOp op r = .ok r' →
      r'.status = r.status ∨ lifecycleEdge r.status r'.status = true ∨
        (op = .requeueOp ∧ r.status = .FAILED ∧ r'.status = .QUEUED)) ∧
    (∀ op r r', stepOp op r = .ok r' →
      r.status = .COMPLETED ∨ r.status = .CANCELLED → r'.status = r.status) ∧
    (∀ op r r', stepOp op r = .ok r' → r'.status = .CANCELLED →
      r.status = .QUEUED ∨ r.status = .PROCESSING ∨ r.status = .CANCELLED) := by
  refine ⟨?_, ?_, ?_⟩
  · intro op r r' h
    cases op <;>
      simp only [stepOp, acquire, reportProgress, reportSuccess, reportFailure,
        cancel, expireLease, requeue] at h <;>
      (repeat' split at h) <;>
      simp only [reduceCtorEq, Except.ok.injEq] at h <;>
      subst h <;> simp_all [lifecycleEdge]
  · intro op r r' h hterm
    cases op <;>
      simp only [stepOp, acquire, reportProgress, reportSuccess, reportFailure,
        cancel, expireLease, requeue] at h <;>
      (repeat' split at h) <;>
      simp only [reduceCtorEq, Except.ok.injEq] at h <;>
      subst h <;> simp_all
  · intro op r r' h hc
    cases op <;>
      simp only [stepOp, acquire, reportProgress, reportSuccess, reportFailure,
        cancel, expireLease, requeue] at h <;>
      (repeat' split at h) <;>
      simp only [reduceCtorEq, Except.ok.injEq] at h <;>
      subst h <;> simp_all

/-- C1 counterexample to the claim as stated: the operator dead-letter
`requeue` (spec §4.3/§6) is a core operation that moves a `FAILED` record to
`QUEUED`, an edge outside the claimed set, so `FAILED` does have an outgoing
transition. -/
theorem requeue_escapes_failed :
    stepOp .requeueOp
        { status := .FAILED, progress := 0, retryCount := 3, maxRetries := 3,
          leaseOwner := none, error := some .RETRIABLE, cancelRequested := false } =
      .ok { status := .QUEUED, progress := 0, retryCount := 0, maxRetries := 3,
            leaseOwner := none, error := none, cancelRequested := false } ∧
    lifecycleEdge .FAILED .QUEUED = false ∧ (Status.FAILED ≠ Status.QUEUED) :=
  ⟨rfl, rfl, by decide⟩

/-- Witness for C1: the amended theorem applied to `cancel` on a freshly
submitted (`QUEUED`) record. -/
theorem lifecycle_transitions_witness :
    ({ status := .CANCELLED, progress := 0, retryCount := 0, maxRetries := 1,
       leaseOwner := none, error := none, cancelRequested := false } :
        TaskRecord).status = (submitRecord 1).status ∨
    lifecycleEdge (submitRecord 1).status
      ({ status := .CANCELLED, progress := 0, retryCount := 0, maxRetries := 1,
         leaseOwner := none, error := none, cancelRequested := false } :
          TaskRecord).status = true ∨
    (Op.cancelOp = Op.requeueOp ∧ (submitRecord 1).status = .FAILED ∧
      ({ status := .CANCELLED, progress := 0, retryCount := 0, maxRetries := 1,
         leaseOwner := none, error := none, cancelRequested := false } :
          TaskRecord).status = .QUEUED) :=
  lifecycle_transitions_amended.1 .cancelOp (submitRecord 1) _ rfl

/-- Trace of a task with `maxRetries = 3` whose every attempt fails with a
`RETRIABLE` error: statuses after each operation, final `retryCount` and
`maxRetries`. -/
def alwaysRetriableTrace : Except OpError (List Status × Nat × Nat) := do
  let r0 := submitRecord 3
  let p1 ← acquire 7 r0
  let r1 ← reportFailure 7 .RETRIABLE p1
  let p2 ← acquire 7 r1
  let r2 ← reportFailure 7 .RETRIABLE p2
  let p3 ← acquire 7 r2
  let r3 ← reportFailure 7 .RETRIABLE p3
  let p4 ← acquire 7 r3
  let r4 ← reportFailure 7 .RETRIABLE p4
  pure ([r0.status, p1.status, r1.status, p2.status, r2.status, p3.status,
         r3.status, p4.status, r4.status], r4.retryCount, r4.maxRetries)

/-- C2: with `maxRetries = 3` and every attempt ending in a `RETRIABLE`
`reportFailure`, the record performs `QUEUED → PROCESSING → QUEUED` exactly
3 times and then `QUEUED → PROCESSING → FAILED`; on reaching `FAILED` its
`retryCount` equals `maxRetries` (= 3). -/
theorem retriable_three_retries_trace :
    alwaysRetriableTrace =
      .ok ([.QUEUED, .PROCESSING, .QUEUED, .PROCESSING, .QUEUED, .PROCESSING,
            .QUEUED, .PROCESSING, .FAILED], 3, 3) := rfl

/-- C6: any non-empty burst of updates added to an `UpdateBatcher` within one
rate-limit interval collapses to the single latest value: the interval tick
emits exactly that last update and leaves the queue empty, and the queue
never holds more than that one latest value (earlier values are dropped, not
queued). -/
theorem update_batcher_latest_only {α : Type} (q0 : List α) (us : List α)
    (h : us ≠ []) :
    batchTick (us.foldl addUpdate ⟨q0⟩) = (us.getLast?, ⟨[]⟩) ∧
    (us.foldl addUpdate ⟨q0⟩).queue = us.getLast?.toList := by
  rcases List.eq_nil_or_concat us with rfl | ⟨vs, v, rfl⟩
  · exact absurd rfl h
  · simp [List.concat_eq_append, List.foldl_append, addUpdate, batchTick,
      List.getLast?_concat]

/-- Witness for C6: the burst `10, 20, 30` on a batcher whose queue held 5. -/
theorem update_batcher_latest_only_witness :
    batchTick (([10, 20, 30] : List Nat).foldl addUpdate ⟨[5]⟩) =
      (([10, 20, 30] : List Nat).getLast?, ⟨[]⟩) ∧
    (([10, 20, 30] : List Nat).foldl addUpdate ⟨[5]⟩).queue =
      ([10, 20, 30] : List Nat).getLast?.toList :=
  update_batcher_latest_only [5] [10, 20, 30] (by decide)

/-- C7: a `save` whose sequence number is not strictly greater than the
stored one is rejected with `StaleCheckpoint` and the store is exactly what
it was before; a strictly greater sequence number succeeds and replaces the
stored checkpoint, leaving every other task untouched. -/
theorem checkpoint_stale_rejected (store : CheckpointStore)
    (taskId seq : Nat) (payload : List Nat) (cp : Checkpoint)
    (hstored : store taskId = some cp) :
    (seq ≤ cp.seq →
      saveCheckpoint store taskId seq payload = (.error .StaleCheckpoint, store)) ∧
    (cp.seq < seq →
      (saveCheckpoint store taskId seq payload).1 = .ok () ∧
      (saveCheckpoint store taskId seq payload).2 taskId = some ⟨seq, payload⟩ ∧
      ∀ u, u ≠ taskId → (saveCheckpoint store taskId seq payload).2 u = store u) := by
  constructor
  · intro hle
    simp [saveCheckpoint, hstored, hle]
  · intro hlt
    have hnle : ¬ seq ≤ cp.seq := not_le.mpr hlt
    refine ⟨?_, ?_, ?_⟩
    · simp [saveCheckpoint, hstored, hnle]
    · simp [saveCheckpoint, hstored, hnle]
    · intro u hu
      simp [saveCheckpoint, hstored, hnle, hu]

/-- Concrete store for the C7 witness: task 0 holds checkpoint seq 5. -/
def demoStore : CheckpointStore :=
  fun t => if t = 0 then some ⟨5, [1, 2]⟩ else none

/-- Witness for C7: writing seq 5 over stored seq 5 is rejected and the
store is unchanged. -/
theorem checkpoint_stale_rejected_witness :
    saveCheckpoint demoStore 0 5 [9] = (.error .StaleCheckpoint, demoStore) :=
  (checkpoint_stale_rejected demoStore 0 5 [9] ⟨5, [1, 2]⟩ rfl).1 (by decide)

/-- C9: the MIME-type check of `validateFile` takes precedence: whenever the
file's MIME type is not allowed, the result is the `Invalid file type` error
— regardless of the file's name (extension) and size. -/
theorem mime_check_precedes_extension (f : JSFile)
    (h : f.type ∉ ALLOWED_VIDEO_TYPES) :
    validateFile f = { isValid := false, error := some invalidTypeMsg } := by
  simp [validateFile, h]

/-- Witness for C9: a file with an allowed `.mp4` extension but an empty
browser-reported MIME type is rejected with the file-type error. -/
theorem mime_check_precedes_extension_witness :
    validateFile ⟨"".data, "movie.mp4".data, 1000⟩ =
      { isValid := false, error := some invalidTypeMsg } :=
  mime_check_precedes_extension ⟨"".data, "movie.mp4".data, 1000⟩ (by decide)

/-- C3: for every 1-indexed retry attempt `n` and jitter draw in
`[0.8, 1.2]`, the computed delay equals `min(300, 2^(n-1)) * j'` for some
jitter factor `j'` in `[0.8, 1.2]`, and always lies within
`[0.8, 1.2] * min(300, 2^(n-1))` seconds. -/
theorem retry_delay_bounds (n : Nat) (j : ℚ) (_hn : 1 ≤ n)
    (hj0 : (0.8 : ℚ) ≤ j) (hj1 : j ≤ (1.2 : ℚ)) :
    (∃ j', (0.8 : ℚ) ≤ j' ∧ j' ≤ (1.2 : ℚ) ∧
      calculate_retry_delay n j = min 300 ((2 : ℚ) ^ (n - 1)) * j') ∧
    (0.8 : ℚ) * min 300 ((2 : ℚ) ^ (n - 1)) ≤ calculate_retry_delay n j ∧
    calculate_retry_delay n j ≤ (1.2 : ℚ) * min 300 ((2 : ℚ) ^ (n - 1)) := by
  unfold calculate_retry_delay
  set b : ℚ := 2 ^ (n - 1) with hbdef
  have hb : (0 : ℚ) < b := by rw [hbdef]; positivity
  rcases le_total (b * j) 300 with hbj | hbj <;> rcases le_total b 300 with hb3 | hb3
  · rw [min_eq_left hbj, min_eq_right hb3]
    refine ⟨⟨j, hj0, hj1, rfl⟩, ?_, ?_⟩ <;> nlinarith
  · rw [min_eq_left hbj, min_eq_left hb3]
    refine ⟨⟨b * j / 300, ?_, ?_, ?_⟩, ?_, ?_⟩
    · rw [le_div_iff₀ (by norm_num : (0 : ℚ) < 300)]; nlinarith
    · rw [div_le_iff₀ (by norm_num : (0 : ℚ) < 300)]; nlinarith
    · ring
    · nlinarith
    · nlinarith
  · rw [min_eq_right hbj, min_eq_right hb3]
    refine ⟨⟨300 / b, ?_, ?_, ?_⟩, ?_, ?_⟩
    · rw [le_div_iff₀ hb]; nlinarith
    · rw [div_le_iff₀ hb]; nlinarith
    · rw [mul_div_cancel₀ _ (ne_of_gt hb)]
    · nlinarith
    · nlinarith
  · rw [min_eq_right hbj, min_eq_left hb3]
    exact ⟨⟨1, by norm_num, by norm_num, by norm_num⟩, by norm_num, by norm_num⟩

/-- Witness for C3: attempt 10 with jitter 1 — the delay hits the 300 s cap
and stays within the claimed envelope. -/
theorem retry_delay_bounds_witness :
    (∃ j', (0.8 : ℚ) ≤ j' ∧ j' ≤ (1.2 : ℚ) ∧
      calculate_retry_delay 10 1 = min 300 ((2 : ℚ) ^ (10 - 1)) * j') ∧
    (0.8 : ℚ) * min 300 ((2 : ℚ) ^ (10 - 1)) ≤ calculate_retry_delay 10 1 ∧
    calculate_retry_delay 10 1 ≤ (1.2 : ℚ) * min 300 ((2 : ℚ) ^ (10 - 1)) :=
  retry_delay_bounds 10 1 (by decide) (by norm_num) (by norm_num)

/-- C4: `validateFile` rejects (with a non-null error) exactly the files
whose MIME type is not among the five allowed video types, or whose
lower-cased extension is not among the five allowed extensions, or whose
size exceeds `2 * 1024^3` bytes, or whose size is 0; every other file is
accepted with `error = null`, and the upload is started exactly for
accepted files. -/
theorem validateFile_accepts_exactly_wellformed (f : JSFile) :
    ((validateFile f).isValid = false ↔
      (f.type ∉ ALLOWED_VIDEO_TYPES ∨
       fileExtension f.name ∉ ALLOWED_EXTENSIONS ∨
       MAX_FILE_SIZE < f.size ∨ f.size = 0)) ∧
    ((validateFile f).isValid = false → (validateFile f).error ≠ none) ∧
    ((validateFile f).isValid = true → (validateFile f).error = none) ∧
    (∀ rest, (handleFileSelect (f :: rest)).uploadStarted = (validateFile f).isValid) ∧
    MAX_FILE_SIZE = 2 * 1024 ^ 3 := by
  have hmax : MAX_FILE_SIZE = 2 * 1024 ^ 3 := by norm_num [MAX_FILE_SIZE]
  refine ⟨?_, ?_, ?_, ?_, hmax⟩ <;>
    by_cases h1 : f.type ∈ ALLOWED_VIDEO_TYPES <;>
    by_cases h2 : fileExtension f.name ∈ ALLOWED_EXTENSIONS <;>
    by_cases h3 : MAX_FILE_SIZE < f.size <;>
    by_cases h4 : f.size = 0 <;>
    simp [validateFile, handleFileSelect, h1, h2, h3, h4]

/-- Witness for C4: an empty `.mp4` file is rejected with a non-null error
and no upload starts. -/
theorem validateFile_accepts_exactly_wellformed_witness :
    ((validateFile ⟨"video/mp4".data, "a.mp4".data, 0⟩).isValid = false ↔
      ("video/mp4".data ∉ ALLOWED_VIDEO_TYPES ∨
       fileExtension ("a.mp4".data) ∉ ALLOWED_EXTENSIONS ∨
       MAX_FILE_SIZE < 0 ∨ (0 : Nat) = 0)) ∧
    ((validateFile ⟨"video/mp4".data, "a.mp4".data, 0⟩).isValid = false →
      (validateFile ⟨"video/mp4".data, "a.mp4".data, 0⟩).error ≠ none) ∧
    ((validateFile ⟨"video/mp4".data, "a.mp4".data, 0⟩).isValid = true →
      (validateFile ⟨"video/mp4".data, "a.mp4".data, 0⟩).error = none) ∧
    (∀ rest, (handleFileSelect (⟨"video/mp4".data, "a.mp4".data, 0⟩ :: rest)).uploadStarted =
      (validateFile ⟨"video/mp4".data, "a.mp4".data, 0⟩).isValid) ∧
    MAX_FILE_SIZE = 2 * 1024 ^ 3 :=
  validateFile_accepts_exactly_wellformed ⟨"video/mp4".data, "a.mp4".data, 0⟩

/-- Progress/status coupling invariant of the Task Record (§3). -/
def ProgressInv (r : TaskRecord) : Prop :=
  r.progress = 100 → r.status = .COMPLETED

/-- Every attempted core operation preserves the progress/status coupling. -/
theorem attempt_preserves_progressInv (r : TaskRecord) (op : Op)
    (hr : ProgressInv r) : ProgressInv (attempt r op) := by
  unfold attempt
  cases hop : stepOp op r with
  | error e => exact hr
  | ok r' =>
    cases op <;>
      simp only [stepOp, acquire, reportProgress, reportSuccess, reportFailure,
        cancel, expireLease, requeue] at hop <;>
      (repeat' split at hop) <;>
      simp only [reduceCtorEq, Except.ok.injEq] at hop <;>
      subst hop <;>
      intro hp <;>
      simp_all [ProgressInv]

/-- C5: every record reachable from submission through any sequence of core
operations satisfies `progress = 100 → status = COMPLETED`; moreover, for a
task satisfying that invariant, the progress the TaskList component shows is
100 exactly when the task is completed. -/
theorem progress_full_implies_completed :
    (∀ (maxRetries : Nat) (ops : List Op),
      (runOps (submitRecord maxRetries) ops).progress = 100 →
      (runOps (submitRecord maxRetries) ops).status = .COMPLETED) ∧
    (∀ t : UITask, (t.progress.getD 0 = 100 → t.status = "completed".data) →
      (getProgressPercentage t = 100 ↔ t.status = "completed".data)) := by
  constructor
  · intro mr ops
    have h : ∀ (r : TaskRecord), ProgressInv r → ProgressInv (runOps r ops) := by
      induction ops with
      | nil => exact fun r hr => hr
      | cons op ops ih =>
        exact fun r hr => ih (attempt r op) (attempt_preserves_progressInv r op hr)
    exact h (submitRecord mr) (by intro hp; simp [submitRecord] at hp)
  · intro t hinv
    unfold getProgressPercentage
    by_cases hc : t.status = "completed".data
    · simp [hc]
    · by_cases hf : t.status = "failed".data
      · simp [hc, hf]
      · simp only [hc, hf, if_false, if_neg hc, if_neg hf]
        simp only [hc, iff_false]
        exact fun hp => hc (hinv hp)

/-- Witness for C5: a submitted task that is acquired and reported
successful ends `COMPLETED` with progress 100; a completed UI task shows
100%. -/
theorem progress_full_implies_completed_witness :
    (runOps (submitRecord 1) [.acquireOp 2, .successOp 2]).status = .COMPLETED ∧
    getProgressPercentage ⟨"id1".data, "clip".data, "completed".data, 0, some 100⟩ = 100 :=
  ⟨progress_full_implies_completed.1 1 [.acquireOp 2, .successOp 2] (by decide),
   (progress_full_implies_completed.2
      ⟨"id1".data, "clip".data, "completed".data, 0, some 100⟩
      (fun _ => rfl)).mpr rfl⟩

/-- A non-`QUEUED` record rejects every remaining caller with
`AlreadyLeased`, unchanged. -/
theorem acquireRace_stuck (ws : List Nat) (r : TaskRecord)
    (flags : List (Except OpError Unit)) (h : r.status ≠ .QUEUED) :
    ws.foldl acquireStep (r, flags) =
      (r, flags ++ List.replicate ws.length (.error .AlreadyLeased)) := by
  induction ws generalizing flags with
  | nil => simp
  | cons w ws ih =>
    have hacq : acquire w r = .error .AlreadyLeased := by
      simp [acquire, h]
    simp only [List.foldl_cons, acquireStep, hacq]
    rw [ih]
    simp [List.replicate_succ]

/-- Errors carry no success. -/
theorem countP_isOkResult_replicate (n : Nat) :
    (List.replicate n (Except.error OpError.AlreadyLeased :
      Except OpError Unit)).countP (fun x => isOkResult x) = 0 := by
  induction n with
  | zero => rfl
  | succ n ih => simp [List.replicate_succ, List.countP_cons, ih, isOkResult]

/-- C8: under `N ≥ 1` linearized concurrent `acquire` calls on a `QUEUED`,
unleased task, the first caller succeeds — acquiring the lease and setting
`status = PROCESSING` — and each of the other `N - 1` callers fails with
`AlreadyLeased`, leaving the record exactly as the winner left it; exactly
one call succeeds. -/
theorem acquire_mutual_exclusion (w : Nat) (ws : List Nat) (r : TaskRecord)
    (hq : r.status = .QUEUED) (hl : r.leaseOwner = none) :
    acquireRace (w :: ws) r =
      ({ r with status := .PROCESSING, leaseOwner := some w },
       .ok () :: List.replicate ws.length (.error .AlreadyLeased)) ∧
    ((Except.ok () : Except OpError Unit) :: List.replicate ws.length
        (Except.error OpError.AlreadyLeased)).countP (fun x => isOkResult x) = 1 := by
  constructor
  · unfold acquireRace
    have hacq : acquire w r =
        .ok { r with status := .PROCESSING, leaseOwner := some w } := by
      simp [acquire, hq, hl]
    simp only [List.foldl_cons, acquireStep, hacq]
    rw [acquireRace_stuck ws _ _ (by simp)]
    simp
  · simp [List.countP_cons, countP_isOkResult_replicate, isOkResult]

/-- Witness for C8: three racing workers on a fresh task — worker 1 wins,
workers 2 and 3 get `AlreadyLeased`. -/
theorem acquire_mutual_exclusion_witness :
    acquireRace [1, 2, 3] (submitRecord 2) =
      ({ submitRecord 2 with status := .PROCESSING, leaseOwner := some 1 },
       .ok () :: List.replicate 2 (.error .AlreadyLeased)) ∧
    ((Except.ok () : Except OpError Unit) :: List.replicate 2
        (Except.error OpError.AlreadyLeased)).countP (fun x => isOkResult x) = 1 :=
  acquire_mutual_exclusion 1 [2, 3] (submitRecord 2) rfl rfl

/-- C10: the TaskList never invents or duplicates tasks — the displayed list
is a permutation of a sub-multiset of the input (per-task multiplicity never
grows), every displayed task satisfies the active status filter and matches
the search query, and the footer count `Showing X of Y` has `X ≤ Y`. -/
theorem filteredTasks_no_invention (tasks : List UITask) (fs q sb : Str) :
    (∀ t, (filteredTasks tasks fs q sb).count t ≤ tasks.count t) ∧
    (filteredTasks tasks fs q sb).length ≤ tasks.length ∧
    (fs ≠ "all".data → ∀ t ∈ filteredTasks tasks fs q sb, t.status = fs) ∧
    (jsTrim q ≠ [] → ∀ t ∈ filteredTasks tasks fs q sb, matchesSearch q t = true) := by
  unfold filteredTasks
  set l1 := if fs ≠ "all".data then tasks.filter (fun t => t.status == fs) else tasks
    with hl1
  set l2 := if jsTrim q ≠ [] then l1.filter (matchesSearch q) else l1 with hl2
  have hperm : (List.insertionSort (taskLE sb) l2).Perm l2 :=
    List.perm_insertionSort _ _
  have hsub1 : l1.Sublist tasks := by
    rw [hl1]; split
    · exact List.filter_sublist _
    · exact List.Sublist.refl _
  have hsub2 : l2.Sublist l1 := by
    rw [hl2]; split
    · exact List.filter_sublist _
    · exact List.Sublist.refl _
  have hsub : l2.Sublist tasks := hsub2.trans hsub1
  refine ⟨?_, ?_, ?_, ?_⟩
  · intro t
    rw [hperm.count_eq]
    exact hsub.count_le t
  · rw [hperm.length_eq]
    exact hsub.length_le
  · intro hfs t ht
    have ht2 : t ∈ l2 := hperm.mem_iff.mp ht
    have ht1 : t ∈ l1 := hsub2.subset ht2
    rw [hl1, if_pos hfs] at ht1
    have := (List.mem_filter.mp ht1).2
    exact eq_of_beq this
  · intro hq t ht
    have ht2 : t ∈ l2 := hperm.mem_iff.mp ht
    rw [hl2, if_pos hq] at ht2
    exact (List.mem_filter.mp ht2).2

/-- Demo input for the C10 witness. -/
def demoTasks : List UITask :=
  [⟨"a1".data, "vacation".data, "completed".data, 5, some 100⟩,
   ⟨"b2".data, "other".data, "failed".data, 9, none⟩]

/-- Witness for C10: with status filter `completed` and query `vac`, every
shown task is completed and matches, and the footer count is bounded. -/
theorem filteredTasks_no_invention_witness :
    (∀ t ∈ filteredTasks demoTasks "completed".data "vac".data "name".data,
      t.status = "completed".data) ∧
    (filteredTasks demoTasks "completed".data "vac".data "name".data).length ≤
      demoTasks.length :=
  ⟨(filteredTasks_no_invention demoTasks "completed".data "vac".data
      "name".data).2.2.1 (by decide),
   (filteredTasks_no_invention demoTasks "completed".data "vac".data
      "name".data).2.1⟩

end AsyncVideo
